import Mathlib

/-!
Shallow embedding of the BoostBotTracker repository:

* `src/bot/tibia_api.py` — `TibiaAPI._make_request`, `TibiaAPI.get_boosted_creatures`,
  `TibiaAPI.get_creature_details`;
* `src/main.py` — `TibiaBot.post_boosted_updates`, `TibiaBot._post_creature_update`,
  `TibiaBot._post_boss_update`.

JSON values flowing through the code are modelled by the `Json` type below
(the fields the code accesses are null, strings, or nested objects).  Python
semantics that the code relies on are modelled explicitly: truthiness
(`pyTruthy`), dictionary membership and indexing including the `TypeError` /
`KeyError` they can raise (`pyIn`, `pyIndex`, `pyGetD`, with `Except Unit`
standing for a raised exception that an enclosing `except` converts to a
`None` result), and the string methods `replace(' ', '_')` / `lower()` /
`strip()` at character level.  Network and chat-platform effects are passed in
as explicit environment values and recorded in event traces.
-/

/-- JSON-like values as manipulated by the Python code: `null` models Python
`None`, `str` a string, `obj` a dict (keys unique, first binding wins). -/
inductive Json where
  | null : Json
  | str : String → Json
  | obj : List (String × Json) → Json
deriving Repr

mutual

/-- Structural (Python `==` / `!=`) equality test on `Json` values. -/
def Json.beq : Json → Json → Bool
  | .null, .null => true
  | .str s, .str t => s == t
  | .obj l, .obj m => Json.beqFields l m
  | _, _ => false

/-- Field-list equality used by `Json.beq` on objects. -/
def Json.beqFields : List (String × Json) → List (String × Json) → Bool
  | [], [] => true
  | (k, v) :: r, (k2, v2) :: r2 => k == k2 && Json.beq v v2 && Json.beqFields r r2
  | _, _ => false

end

instance : BEq Json := ⟨Json.beq⟩

/-- Python truthiness of a value: `None` is falsy, a string is truthy iff
non-empty, a dict is truthy iff non-empty. -/
def pyTruthy : Json → Bool
  | .null => false
  | .str s => s != ""
  | .obj l => !l.isEmpty

/-- Python truthiness of an `Optional` value (`None` is falsy). -/
def pyTruthyO : Option Json → Bool
  | none => false
  | some j => pyTruthy j

/-- First binding of `key` in a field list (Python dict lookup). -/
def lookupField (l : List (String × Json)) (key : String) : Option Json :=
  match l.find? (fun kv => kv.1 == key) with
  | some kv => some kv.2
  | none => none

/-- Is `pat` a prefix of the character list? -/
def listIsPre : List Char → List Char → Bool
  | [], _ => true
  | _ :: _, [] => false
  | p :: ps, c :: cs => p == c && listIsPre ps cs

/-- Substring containment on character lists (Python `pat in s` for strings;
the empty pattern is contained in everything, as in Python). -/
def listContainsSub : List Char → List Char → Bool
  | _, [] => true
  | [], _ :: _ => false
  | c :: rest, pat => listIsPre pat (c :: rest) || listContainsSub rest pat

/-- Python `key in j`: key membership for a dict, substring test for a string,
`TypeError` (modelled as `.error ()`) for `None`. -/
def pyIn (key : String) (j : Json) : Except Unit Bool :=
  match j with
  | .obj l => .ok (l.any fun kv => kv.1 == key)
  | .str s => .ok (listContainsSub s.data key.data)
  | .null => .error ()

/-- Python `j[key]`: dict indexing; `KeyError` when the key is missing,
`TypeError` when `j` is not a dict. -/
def pyIndex (j : Json) (key : String) : Except Unit Json :=
  match j with
  | .obj l =>
    match lookupField l key with
    | some v => .ok v
    | none => .error ()
  | _ => .error ()

/-- Python `j.get(key, dflt)`: only dicts have `.get`; anything else raises
`AttributeError`. -/
def pyGetD (j : Json) (key : String) (dflt : Json) : Except Unit Json :=
  match j with
  | .obj l => .ok ((lookupField l key).getD dflt)
  | _ => .error ()

/-- Python `j.get(key)` (default `None`). -/
def pyGet (j : Json) (key : String) : Except Unit Json := pyGetD j key .null

/-- Python `s.replace(' ', '_')` — the single-character case used by the code,
hence a character map. -/
def pyReplaceSpace (s : String) : String :=
  ⟨s.data.map (fun c => if c = ' ' then '_' else c)⟩

/-- Python `s.lower()` (character-wise, ASCII as used by the code). -/
def pyLower (s : String) : String := ⟨s.data.map Char.toLower⟩

/-- Python `s.strip()`: drop leading and trailing whitespace. -/
def pyStrip (s : String) : String :=
  ⟨((s.data.dropWhile Char.isWhitespace).reverse.dropWhile Char.isWhitespace).reverse⟩

/-! ## Fetch client: `TibiaAPI._make_request` (src/bot/tibia_api.py lines 36-76)

One HTTP attempt either yields a status code together with the body-parse
outcome (`.http status body`, where a parse failure of a 200 body is the
exception raised by `response.json()`), or raises a timeout / client /
unexpected error (`.exn`).  The loop `for attempt in range(retries + 1)` makes
one attempt per iteration: a 200 with a parsed body returns it immediately; a
429 sleeps and continues; any other status or exception falls through to the
bottom-of-loop sleep and the next attempt.  After the loop, `None` is
returned.  The result below pairs the returned value with the number of HTTP
calls made (sleeping is not modelled; it does not affect results or counts). -/

/-- Outcome of one HTTP attempt as seen by `_make_request`. -/
inductive HResp where
  | http (status : Nat) (body : Except Unit Json)
  | exn
deriving Repr

/-- The retry loop of `_make_request`, started at `attempt` with `fuel`
iterations remaining; returns the result and the number of calls made. -/
def make_request_loop (responses : Nat → HResp) : Nat → Nat → Option Json × Nat
  | 0, _ => (none, 0)
  | fuel + 1, attempt =>
    match responses attempt with
    | .http status body =>
      if status = 200 then
        match body with
        | .ok data => (some data, 1)
        | .error _ =>
          -- response.json() raised; caught, falls through to retry
          let r := make_request_loop responses fuel (attempt + 1)
          (r.1, r.2 + 1)
      else if status = 429 then
        -- rate limited: sleep 2^attempt, continue
        let r := make_request_loop responses fuel (attempt + 1)
        (r.1, r.2 + 1)
      else
        -- other status: logged, falls through to bottom-of-loop sleep
        let r := make_request_loop responses fuel (attempt + 1)
        (r.1, r.2 + 1)
    | .exn =>
      let r := make_request_loop responses fuel (attempt + 1)
      (r.1, r.2 + 1)

/-- `TibiaAPI._make_request`: `retries + 1` total attempts, first 200 wins. -/
def make_request (responses : Nat → HResp) (retries : Nat) : Option Json × Nat :=
  make_request_loop responses (retries + 1) 0

/-- Does this attempt succeed (HTTP 200 with a parseable body)?  If so,
with which body? -/
def HResp.success : HResp → Option Json
  | .http status body =>
    if status = 200 then
      match body with
      | .ok data => some data
      | .error _ => none
    else none
  | .exn => none

/-! ## `TibiaAPI.get_creature_details` (src/bot/tibia_api.py lines 119-148)

`responder` abstracts `_make_request` (endpoint ↦ its `Optional[Dict]`
result).  The function returns the creature info (Python `None` modelled as
`Json.null`) together with the list of endpoints requested.  Any exception in
the body (e.g. a `TypeError` from `data['creature']` on a non-dict) is caught
by the enclosing `except` and turned into `None`. -/

def get_creature_details (responder : String → Option Json)
    (creature_name : Option String) : Json × List String :=
  match creature_name with
  | none => (.null, [])          -- `if not creature_name: return None`
  | some s =>
    if s == "" then (.null, [])  -- same falsiness check
    else
      let formatted_name := pyLower (pyReplaceSpace s)
      let endpoint := "creature/" ++ formatted_name
      let result :=
        match responder endpoint with
        | none => Json.null
        | some data =>
          -- `if data and 'creature' in data: return data['creature']`
          if pyTruthy data then
            match pyIn "creature" data with
            | .error _ => Json.null
            | .ok true =>
              match pyIndex data "creature" with
              | .ok v => v
              | .error _ => Json.null
            | .ok false => Json.null
          else Json.null
      (result, [endpoint])

/-- Modelled from the spec (§4.1 `get_entity_details`): the normalization the
specification claims — "trim, lowercase, spaces→underscores" — written from
the spec's words, to be compared with what the source actually does. -/
def specNormalizeName (name : String) : String :=
  pyReplaceSpace (pyLower (pyStrip name))

/-! ## `TibiaAPI.get_boosted_creatures` (src/bot/tibia_api.py lines 78-117)

The two `_make_request` results (world response, boostable-bosses response)
are passed in.  Each extraction mirrors the guarded accesses of the source;
an `.error` is an exception that the enclosing `except` turns into an overall
`None` return. -/

/-- Extraction of `boosted_creature` from the world response (lines 89-92):
`if world_data and 'world' in world_data and 'world_information' in
world_data['world']: boosted_creature =
world_data['world']['world_information'].get('boosted_creature')`. -/
def extractCreature (world_data : Option Json) : Except Unit Json :=
  match world_data with
  | none => .ok .null
  | some wd =>
    if pyTruthy wd then
      match pyIn "world" wd with
      | .error e => .error e
      | .ok false => .ok .null
      | .ok true =>
        match pyIndex wd "world" with
        | .error e => .error e
        | .ok w =>
          match pyIn "world_information" w with
          | .error e => .error e
          | .ok false => .ok .null
          | .ok true =>
            match pyIndex w "world_information" with
            | .error e => .error e
            | .ok world_info => pyGet world_info "boosted_creature"
    else .ok .null

/-- Extraction of `boosted_boss` from the bosses response (lines 97-101):
`if bosses_data and 'boostable_bosses' in bosses_data: ... if 'boosted' in
bosses_info and bosses_info['boosted']: boosted_boss =
bosses_info['boosted']['name']`. -/
def extractBoss (bosses_data : Option Json) : Except Unit Json :=
  match bosses_data with
  | none => .ok .null
  | some bd =>
    if pyTruthy bd then
      match pyIn "boostable_bosses" bd with
      | .error e => .error e
      | .ok false => .ok .null
      | .ok true =>
        match pyIndex bd "boostable_bosses" with
        | .error e => .error e
        | .ok bosses_info =>
          match pyIn "boosted" bosses_info with
          | .error e => .error e
          | .ok false => .ok .null
          | .ok true =>
            match pyIndex bosses_info "boosted" with
            | .error e => .error e
            | .ok boosted =>
              if pyTruthy boosted then pyIndex boosted "name"
              else .ok .null
    else .ok .null

/-- Extraction of the timestamp for the result dict (line 107):
`world_data.get('information', \x7b\x7d).get('timestamp') if world_data else
None`. -/
def extractTimestamp (world_data : Option Json) : Except Unit Json :=
  match world_data with
  | none => .ok .null
  | some wd =>
    if pyTruthy wd then
      match pyGetD wd "information" (.obj []) with
      | .error e => .error e
      | .ok info => pyGet info "timestamp"
    else .ok .null

/-- The dict returned by `get_boosted_creatures` on success. -/
structure BoostedData where
  boosted_creature : Json
  boosted_boss : Json
  timestamp : Json
deriving Repr

/-- `TibiaAPI.get_boosted_creatures`: returns the result dict when at least
one of creature/boss is truthy, `None` otherwise; any exception is caught and
also yields `None`. -/
def get_boosted_creatures (world_data bosses_data : Option Json) :
    Option BoostedData :=
  match extractCreature world_data with
  | .error _ => none
  | .ok boosted_creature =>
    match extractBoss bosses_data with
    | .error _ => none
    | .ok boosted_boss =>
      if pyTruthy boosted_creature || pyTruthy boosted_boss then
        match extractTimestamp world_data with
        | .error _ => none
        | .ok ts => some ⟨boosted_creature, boosted_boss, ts⟩
      else none

/-! ## Update controller: `TibiaBot.post_boosted_updates` (src/main.py lines 90-184)

The environment of one call carries the fetched boosted data (the result of
`get_boosted_creatures`) and, per slot, the configured channel id (`0` when
the environment variable is unset, Python-falsy), whether `get_channel`
resolves it, and the outcome of `channel.send`.  `_post_creature_update` /
`_post_boss_update` catch `discord.Forbidden` and `discord.HTTPException`
internally (lines 155-160, 179-184) and only log them, so no exception
escapes them; the caught outcome is recorded in the event trace.  The embed
builder is modelled from the spec (§2 item 2: a pure renderer with no state)
since `bot/embed_builder.py` is not part of the sources; being pure and
total it contributes no observable effect. -/

/-- Outcome of `channel.send`: success, `discord.Forbidden`, or
`discord.HTTPException`. -/
inductive SendOutcome where
  | success
  | forbidden
  | httpError
deriving Repr, DecidableEq

/-- Per-slot environment: channel id from configuration (0 = unset),
whether `get_channel` finds the channel, and the send outcome. -/
structure SlotEnv where
  channelId : Nat
  channelFound : Bool
  send : SendOutcome
deriving Repr

/-- Environment of one `post_boosted_updates` call. -/
structure Env where
  boosted : Option BoostedData
  creature : SlotEnv
  boss : SlotEnv

/-- The controller's cross-tick state: `self.last_posted_creature` and
`self.last_posted_boss`, both initialised to `None` (src/main.py 51-52). -/
structure BotState where
  last_posted_creature : Json
  last_posted_boss : Json
deriving Repr

/-- Initial controller state: nothing posted yet. -/
def BotState.init : BotState := ⟨.null, .null⟩

/-- The dict returned by `post_boosted_updates` (src/main.py 100-104). -/
structure UpdateResult where
  creature_posted : Bool
  boss_posted : Bool
  errors : List String
deriving Repr

/-- Which slot an effect belongs to. -/
inductive SlotId where
  | creature
  | boss
deriving Repr, DecidableEq

/-- Observable external effects of one call: a detail fetch
(`get_creature_details`) or an attempted `channel.send` with its outcome. -/
inductive Event where
  | detailFetch (slot : SlotId) (name : Json)
  | channelSend (slot : SlotId) (channelId : Nat) (outcome : SendOutcome)
deriving Repr

/-- Is this event a send attempt for `slot`? -/
def Event.isSendFor (slot : SlotId) : Event → Bool
  | .channelSend s _ _ => s == slot
  | _ => false

/-- Number of send attempts for `slot` in a trace. -/
def sendCount (slot : SlotId) (evs : List Event) : Nat :=
  (evs.filter (Event.isSendFor slot)).length

/-- `TibiaBot._post_creature_update` / `_post_boss_update` (lines 138-184):
return early when the channel id is unset (falsy 0) or the channel cannot be
resolved; otherwise fetch details, build the embed, and attempt the send,
catching and logging `Forbidden` / `HTTPException`.  Nothing is returned and
no exception escapes; the value is the trace of effects. -/
def postSlotUpdate (slot : SlotId) (e : SlotEnv) (name : Json) : List Event :=
  if e.channelId = 0 then []
  else if e.channelFound = false then []
  else [.detailFetch slot name, .channelSend slot e.channelId e.send]

/-- `TibiaBot.post_boosted_updates` (lines 90-136).  Returns the result dict,
the new controller state, and the trace of external effects.  When the fetch
fails, one error is recorded and nothing else happens.  Each slot posts iff
its observed value is truthy and (`force_update` or it differs from the
stored last-posted value); after calling the per-slot helper the code
unconditionally stores the observed value and sets the flag (lines 119-121,
126-128).  The outer `except` (line 131) is unreachable in this model because
every callee catches its own exceptions, as the source's callees do. -/
def post_boosted_updates (force_update : Bool) (env : Env) (st : BotState) :
    UpdateResult × BotState × List Event :=
  match env.boosted with
  | none =>
    ({ creature_posted := false, boss_posted := false,
       errors := ["Failed to fetch boosted data"] }, st, [])
  | some boosted_data =>
    let creature_name := boosted_data.boosted_creature
    let boss_name := boosted_data.boosted_boss
    let step1 :=
      if pyTruthy creature_name
          && (force_update || !(creature_name == st.last_posted_creature)) then
        (true, { st with last_posted_creature := creature_name },
         postSlotUpdate .creature env.creature creature_name)
      else (false, st, ([] : List Event))
    let step2 :=
      if pyTruthy boss_name
          && (force_update || !(boss_name == step1.2.1.last_posted_boss)) then
        (true, { step1.2.1 with last_posted_boss := boss_name },
         postSlotUpdate .boss env.boss boss_name)
      else (false, step1.2.1, ([] : List Event))
    ({ creature_posted := step1.1, boss_posted := step2.1, errors := [] },
     step2.2.1, step1.2.2 ++ step2.2.2)

/-! ## Interleaving model for overlapping `reconcile` calls (src/main.py 117-121)

`post_boosted_updates` is an async coroutine with no lock.  For one slot, its
execution decomposes at the `await` suspension points into three atomic
blocks: the change check (line 118, up to the first `await` inside
`_post_creature_update`), the awaited detail fetch / embed build / channel
send (lines 150-156), and the commit of `last_posted_creature` plus the
result flag (lines 120-121).  Two invocations A and B observing the same
value share `self.last_posted_creature`; a schedule picks which invocation's
next atomic block runs.  `pc` 0/1/2 are the three blocks, 3 is done. -/

/-- Per-invocation progress through the creature slot of one
`post_boosted_updates` call. -/
structure ReconcileTask where
  pc : Nat
  posted : Bool
deriving Repr, DecidableEq

/-- Shared state of two overlapping invocations: the controller's
`last_posted_creature`, both program counters, and each invocation's count of
performed channel sends. -/
structure RaceState where
  last_posted : Json
  taskA : ReconcileTask
  taskB : ReconcileTask
  sendsA : Nat
  sendsB : Nat

/-- One atomic block of one invocation: check (pc 0), awaited fetch+send
(pc 1), commit (pc 2).  Returns the new shared value, the new task state,
and whether a send was performed in this block. -/
def taskStep (observed : Json) (last : Json) (t : ReconcileTask) :
    Json × ReconcileTask × Bool :=
  match t.pc with
  | 0 =>
    if pyTruthy observed && !(observed == last) then (last, { t with pc := 1 }, false)
    else (last, { t with pc := 3 }, false)
  | 1 => (last, { t with pc := 2 }, true)
  | 2 => (observed, { pc := 3, posted := true }, false)
  | _ => (last, t, false)

/-- Run one scheduling choice: `true` steps invocation A, `false` steps B. -/
def raceStep (observed : Json) (s : RaceState) (pickA : Bool) : RaceState :=
  if pickA then
    let r := taskStep observed s.last_posted s.taskA
    { s with last_posted := r.1, taskA := r.2.1,
             sendsA := s.sendsA + (if r.2.2 then 1 else 0) }
  else
    let r := taskStep observed s.last_posted s.taskB
    { s with last_posted := r.1, taskB := r.2.1,
             sendsB := s.sendsB + (if r.2.2 then 1 else 0) }

/-- Run a whole schedule of atomic blocks. -/
def raceRun (observed : Json) (sched : List Bool) (s : RaceState) : RaceState :=
  sched.foldl (raceStep observed) s

/-- Both invocations at their change check, nothing sent, shared state
`last0`. -/
def raceInit (last0 : Json) : RaceState :=
  ⟨last0, ⟨0, false⟩, ⟨0, false⟩, 0, 0⟩

/-- The creature value observed by a call (null when the fetch failed). -/
def Env.observedCreature (env : Env) : Json :=
  match env.boosted with
  | some bd => bd.boosted_creature
  | none => .null

/-- The boss value observed by a call (null when the fetch failed). -/
def Env.observedBoss (env : Env) : Json :=
  match env.boosted with
  | some bd => bd.boosted_boss
  | none => .null

/-! ## Helper lemmas -/

mutual

theorem Json.beq_refl : (j : Json) → Json.beq j j = true
  | .null => rfl
  | .str s => by simp [Json.beq]
  | .obj l => by simp [Json.beq, Json.beqFields_refl l]

theorem Json.beqFields_refl : (l : List (String × Json)) → Json.beqFields l l = true
  | [] => rfl
  | (k, v) :: r => by simp [Json.beqFields, Json.beq_refl v, Json.beqFields_refl r]

end

theorem Json.beq_self (j : Json) : (j == j) = true := Json.beq_refl j

theorem Json.beq_str_iff (s : String) (x : Json) :
    (Json.str s == x) = true ↔ x = Json.str s := by
  cases x <;> simp [BEq.beq, Json.beq, eq_comm]

theorem Json.not_beq_str_iff (s : String) (x : Json) :
    (!(Json.str s == x)) = true ↔ x ≠ Json.str s := by
  rw [Bool.not_eq_true', ← Bool.not_eq_true (Json.str s == x)]
  exact not_congr (Json.beq_str_iff s x)

theorem sendCount_self_le (slot : SlotId) (e : SlotEnv) (name : Json) :
    sendCount slot (postSlotUpdate slot e name) ≤ 1 := by
  unfold postSlotUpdate
  split
  · simp [sendCount]
  · split
    · simp [sendCount]
    · simp [sendCount, Event.isSendFor]

theorem sendCount_other (slot slot2 : SlotId) (e : SlotEnv) (name : Json)
    (h : slot ≠ slot2) : sendCount slot (postSlotUpdate slot2 e name) = 0 := by
  unfold postSlotUpdate
  split
  · simp [sendCount]
  · split
    · simp [sendCount]
    · simp [sendCount, Event.isSendFor]
      intro heq
      exact absurd heq.symm h

theorem sendCount_append (slot : SlotId) (l1 l2 : List Event) :
    sendCount slot (l1 ++ l2) = sendCount slot l1 + sendCount slot l2 := by
  simp [sendCount, List.filter_append]

theorem sendCount_nil (slot : SlotId) : sendCount slot [] = 0 := rfl

/-! ## Concrete inputs used by witnesses and counterexamples -/

/-- A slot whose channel is configured, resolvable, and whose send succeeds. -/
def slotOk : SlotEnv := ⟨100, true, .success⟩

/-- Environment where the fetch failed. -/
def envFetchFail : Env := ⟨none, slotOk, slotOk⟩

/-- Environment observing creature "Wolf" and boss "Ferumbras", all sends
succeeding. -/
def envWolf : Env :=
  ⟨some ⟨.str "Wolf", .str "Ferumbras", .str "2025-01-01"⟩, slotOk, slotOk⟩

/-! ## Claims -/

/-- C8: for every reconcile call in which the boosted-summary fetch returns
absent, the returned UpdateResult has both posted flags false and exactly one
error message, the controller state is unchanged, and no detail fetch and no
send happen (empty event trace). -/
theorem fetch_failure_short_circuit (force : Bool) (env : Env) (st : BotState)
    (h : env.boosted = none) :
    post_boosted_updates force env st =
      ({ creature_posted := false, boss_posted := false,
         errors := ["Failed to fetch boosted data"] }, st, []) := by
  unfold post_boosted_updates
  rw [h]

/-- Witness for C8 at a concrete fetch-failure environment. -/
theorem fetch_failure_short_circuit_witness :
    envFetchFail.boosted = none ∧
    post_boosted_updates false envFetchFail BotState.init =
      ({ creature_posted := false, boss_posted := false,
         errors := ["Failed to fetch boosted data"] }, BotState.init, []) :=
  ⟨rfl, fetch_failure_short_circuit false envFetchFail BotState.init rfl⟩

/-- Environment observing creature "Wolf" (no boss) whose creature send
raises `discord.Forbidden`. -/
def envForbidden : Env :=
  ⟨some ⟨.str "Wolf", .null, .null⟩, ⟨5, true, .forbidden⟩, ⟨7, true, .success⟩⟩

/-- Environment observing creature "Dragon" and boss "Morgaroth" where the
creature send raises `discord.HTTPException` and the boss send succeeds. -/
def envHttpFail : Env :=
  ⟨some ⟨.str "Dragon", .str "Morgaroth", .null⟩, ⟨3, true, .httpError⟩,
   ⟨4, true, .success⟩⟩

/-- The creature-slot change condition of src/main.py line 118. -/
def condCreature (force : Bool) (bd : BoostedData) (st : BotState) : Bool :=
  pyTruthy bd.boosted_creature
    && (force || !(bd.boosted_creature == st.last_posted_creature))

/-- The boss-slot change condition of src/main.py line 125. -/
def condBoss (force : Bool) (bd : BoostedData) (st : BotState) : Bool :=
  pyTruthy bd.boosted_boss
    && (force || !(bd.boosted_boss == st.last_posted_boss))

/-- Normal form of `post_boosted_updates` when the fetch succeeded: each
flag is its slot's change condition, each stored value is updated exactly
when its condition holds, and the trace is the two slot traces in order
(the creature branch does not touch the boss field, so the boss comparison
reads the pre-call value). -/
theorem post_some_eq (force : Bool) (bd : BoostedData) (env : Env)
    (st : BotState) (h : env.boosted = some bd) :
    post_boosted_updates force env st =
      ({ creature_posted := condCreature force bd st,
         boss_posted := condBoss force bd st,
         errors := [] },
       { last_posted_creature :=
           if condCreature force bd st then bd.boosted_creature
           else st.last_posted_creature,
         last_posted_boss :=
           if condBoss force bd st then bd.boosted_boss
           else st.last_posted_boss },
       (if condCreature force bd st then
          postSlotUpdate .creature env.creature bd.boosted_creature
        else []) ++
       (if condBoss force bd st then
          postSlotUpdate .boss env.boss bd.boosted_boss
        else [])) := by
  unfold post_boosted_updates condCreature condBoss
  rw [h]
  by_cases hc : (pyTruthy bd.boosted_creature
      && (force || !(bd.boosted_creature == st.last_posted_creature))) = true
  · by_cases hbo : (pyTruthy bd.boosted_boss
        && (force || !(bd.boosted_boss == st.last_posted_boss))) = true
    · simp [hc, hbo]
    · simp [hc, hbo]
  · by_cases hbo : (pyTruthy bd.boosted_boss
        && (force || !(bd.boosted_boss == st.last_posted_boss))) = true
    · simp [hc, hbo]
    · simp [hc, hbo]

/-- C10: after every reconcile call, if `creature_posted` is true then the
stored `last_posted_creature` equals the creature value observed in that
call's summary, and likewise for the boss slot — on every exit path,
including an unconfigured channel or a failed send, because the code stores
the observed value and sets the flag together (src/main.py 119-121,
126-128). -/
theorem flags_match_state (force : Bool) (env : Env) (st : BotState) :
    ((post_boosted_updates force env st).1.creature_posted = true →
      (post_boosted_updates force env st).2.1.last_posted_creature =
        env.observedCreature) ∧
    ((post_boosted_updates force env st).1.boss_posted = true →
      (post_boosted_updates force env st).2.1.last_posted_boss =
        env.observedBoss) := by
  cases h : env.boosted with
  | none =>
    unfold post_boosted_updates
    rw [h]
    simp
  | some bd =>
    rw [post_some_eq force bd env st h]
    unfold Env.observedCreature Env.observedBoss
    rw [h]
    constructor
    · intro hc
      simp only at hc
      simp [hc]
    · intro hbo
      simp only at hbo
      simp [hbo]

/-- Witness for C10 at a concrete environment where both slots post. -/
theorem flags_match_state_witness :
    (post_boosted_updates false envWolf BotState.init).1.creature_posted = true ∧
    (post_boosted_updates false envWolf BotState.init).2.1.last_posted_creature =
      envWolf.observedCreature ∧
    (post_boosted_updates false envWolf BotState.init).1.boss_posted = true ∧
    (post_boosted_updates false envWolf BotState.init).2.1.last_posted_boss =
      envWolf.observedBoss :=
  ⟨rfl, (flags_match_state false envWolf BotState.init).1 rfl,
   rfl, (flags_match_state false envWolf BotState.init).2 rfl⟩

/-- A JSON value as it occurs in the boosted-data fields in practice: either
null (absent) or a non-empty string. -/
def wfName (j : Json) : Prop := j = Json.null ∨ ∃ s, j = Json.str s ∧ s ≠ ""

/-- For an absent-or-non-empty-string value, the code's change condition is
equivalent to: the value is present, and force is set or it differs from the
stored value. -/
theorem slot_condition_iff (force : Bool) (name last : Json) (h : wfName name) :
    (pyTruthy name && (force || !(name == last))) = true ↔
      (name ≠ Json.null ∧ (force = true ∨ name ≠ last)) := by
  rcases h with hnull | ⟨s, hs, hne⟩
  · subst hnull
    simp [pyTruthy]
  · subst hs
    have hpt : pyTruthy (Json.str s) = true := by simp [pyTruthy, hne]
    rw [hpt]
    simp only [Bool.true_and, Bool.or_eq_true]
    constructor
    · rintro (hf | hd)
      · exact ⟨by simp, Or.inl hf⟩
      · exact ⟨by simp, Or.inr (Ne.symm ((Json.not_beq_str_iff s last).mp hd))⟩
    · rintro ⟨-, hf | hd⟩
      · exact Or.inl hf
      · exact Or.inr ((Json.not_beq_str_iff s last).mpr (Ne.symm hd))

/-- C2: for every reconcile call that obtains a boosted summary whose slot
values are absent-or-non-empty-string, a slot fires (its posted flag is set
and the posting path is entered) iff its observed value is present and
(force is requested or it differs from the stored last-posted value); an
absent stored value (null, the initial state) differs from any present
observed value, two absent values never fire, and under force every slot
with a present observed value fires. -/
theorem change_detection_iff (force : Bool) (bd : BoostedData) (env : Env)
    (st : BotState) (h : env.boosted = some bd)
    (hc : wfName bd.boosted_creature) (hb : wfName bd.boosted_boss) :
    ((post_boosted_updates force env st).1.creature_posted = true ↔
      (bd.boosted_creature ≠ Json.null ∧
        (force = true ∨ bd.boosted_creature ≠ st.last_posted_creature))) ∧
    ((post_boosted_updates force env st).1.boss_posted = true ↔
      (bd.boosted_boss ≠ Json.null ∧
        (force = true ∨ bd.boosted_boss ≠ st.last_posted_boss))) := by
  rw [post_some_eq force bd env st h]
  exact ⟨slot_condition_iff force bd.boosted_creature st.last_posted_creature hc,
         slot_condition_iff force bd.boosted_boss st.last_posted_boss hb⟩

/-- Witness for C2: at a concrete fresh state and observed values, both
slots fire without force. -/
theorem change_detection_iff_witness :
    envWolf.boosted = some ⟨.str "Wolf", .str "Ferumbras", .str "2025-01-01"⟩ ∧
    wfName (Json.str "Wolf") ∧ wfName (Json.str "Ferumbras") ∧
    (post_boosted_updates false envWolf BotState.init).1.creature_posted = true ∧
    (post_boosted_updates false envWolf BotState.init).1.boss_posted = true :=
  ⟨rfl, Or.inr ⟨"Wolf", rfl, by decide⟩, Or.inr ⟨"Ferumbras", rfl, by decide⟩,
   (change_detection_iff false ⟨.str "Wolf", .str "Ferumbras", .str "2025-01-01"⟩
      envWolf BotState.init rfl (Or.inr ⟨"Wolf", rfl, by decide⟩)
      (Or.inr ⟨"Ferumbras", rfl, by decide⟩)).1.mpr
     ⟨by simp, Or.inr (by simp [BotState.init])⟩,
   (change_detection_iff false ⟨.str "Wolf", .str "Ferumbras", .str "2025-01-01"⟩
      envWolf BotState.init rfl (Or.inr ⟨"Wolf", rfl, by decide⟩)
      (Or.inr ⟨"Ferumbras", rfl, by decide⟩)).2.mpr
     ⟨by simp, Or.inr (by simp [BotState.init])⟩⟩

/-- Without force, the change condition re-evaluated against the state left
behind by a first evaluation is always false: either the first evaluation
fired and stored the observed value (which then compares equal), or it did
not fire and the state is unchanged. -/
theorem slot_cond_again (name last : Json) :
    (pyTruthy name && (false || !(name ==
      (if (pyTruthy name && (false || !(name == last))) = true then name
       else last)))) = false := by
  by_cases h : (pyTruthy name && (false || !(name == last))) = true
  · rw [if_pos h]
    simp [Json.beq_self]
  · rw [if_neg h]
    exact Bool.eq_false_iff.mpr h

/-- A slot trace of one call contains at most one send for the creature
slot. -/
theorem trace_send_bound (slot other : SlotId) (hne : slot ≠ other)
    (condC condB : Bool) (ec eb : SlotEnv) (c b : Json) :
    sendCount slot ((if condC = true then postSlotUpdate slot ec c else []) ++
      (if condB = true then postSlotUpdate other eb b else [])) ≤ 1 := by
  rw [sendCount_append]
  have h1 : sendCount slot
      (if condC = true then postSlotUpdate slot ec c else []) ≤ 1 := by
    split
    · exact sendCount_self_le slot ec c
    · simp [sendCount_nil]
  have h2 : sendCount slot
      (if condB = true then postSlotUpdate other eb b else []) = 0 := by
    split
    · exact sendCount_other slot other eb b hne
    · rfl
  omega

/-- C7: calling reconcile twice with `force = false` on unchanged remote
data posts each slot at most once in total across the two calls, and the
second call reports both slots skipped: each flag of the second result is
false and the second call performs no sends at all. -/
theorem reconcile_idempotent (env : Env) (st : BotState) :
    (post_boosted_updates false env
        (post_boosted_updates false env st).2.1).1.creature_posted = false ∧
    (post_boosted_updates false env
        (post_boosted_updates false env st).2.1).1.boss_posted = false ∧
    sendCount .creature (post_boosted_updates false env st).2.2 +
      sendCount .creature
        (post_boosted_updates false env
          (post_boosted_updates false env st).2.1).2.2 ≤ 1 ∧
    sendCount .boss (post_boosted_updates false env st).2.2 +
      sendCount .boss
        (post_boosted_updates false env
          (post_boosted_updates false env st).2.1).2.2 ≤ 1 := by
  cases h : env.boosted with
  | none =>
    unfold post_boosted_updates
    rw [h]
    simp [sendCount]
  | some bd =>
    have h1 := post_some_eq false bd env st h
    have hc1 : condCreature false bd (post_boosted_updates false env st).2.1
        = false := by
      unfold condCreature
      rw [h1]
      exact slot_cond_again bd.boosted_creature st.last_posted_creature
    have hb1 : condBoss false bd (post_boosted_updates false env st).2.1
        = false := by
      unfold condBoss
      rw [h1]
      exact slot_cond_again bd.boosted_boss st.last_posted_boss
    have h2 := post_some_eq false bd env (post_boosted_updates false env st).2.1 h
    rw [hc1, hb1] at h2
    refine ⟨by simp [h2], by simp [h2], ?_, ?_⟩
    · have e2 : sendCount .creature (post_boosted_updates false env
          (post_boosted_updates false env st).2.1).2.2 = 0 := by
        simp [h2, sendCount]
      rw [e2, Nat.add_zero, h1]
      exact trace_send_bound .creature .boss (by simp)
        (condCreature false bd st) (condBoss false bd st)
        env.creature env.boss bd.boosted_creature bd.boosted_boss
    · have e2 : sendCount .boss (post_boosted_updates false env
          (post_boosted_updates false env st).2.1).2.2 = 0 := by
        simp [h2, sendCount]
      rw [e2, Nat.add_zero, h1]
      have hb := trace_send_bound .boss .creature (by simp)
        (condBoss false bd st) (condCreature false bd st)
        env.boss env.creature bd.boosted_boss bd.boosted_creature
      rw [sendCount_append] at hb ⊢
      omega

/-- C1 counterexample: at a concrete reconcile call whose creature channel
send fails with a permission error, the code nevertheless reports
`creature_posted = true`, appends no error, and overwrites
`last_posted_creature` (null before, "Wolf" after) — the trace shows the
failed send.  This contradicts the claim that on send failure the stored
value is left unchanged, an error is appended, and the flag stays false:
`_post_creature_update` swallows the exception (src/main.py 155-160) and the
caller updates state unconditionally (119-121). -/
theorem send_failure_claim_refuted :
    (post_boosted_updates false envForbidden BotState.init).1.creature_posted
        = true ∧
    (post_boosted_updates false envForbidden BotState.init).1.errors = [] ∧
    (post_boosted_updates false envForbidden BotState.init).2.1.last_posted_creature
        = Json.str "Wolf" ∧
    BotState.init.last_posted_creature = Json.null ∧
    (post_boosted_updates false envForbidden BotState.init).2.2 =
      [.detailFetch .creature (.str "Wolf"),
       .channelSend .creature 5 .forbidden] :=
  ⟨rfl, rfl, rfl, rfl, rfl⟩

/-- C1 (amended): when a slot's change condition triggers, the result flag
is set, the stored last-posted value is overwritten with the observed value,
and no error is appended — regardless of the send outcome, because send
failures (permission or transport errors) are caught and only logged inside
the per-slot helper.  The stored value is updated whenever the slot is
processed, not only after a successful send. -/
theorem send_failure_state_update (force : Bool) (bd : BoostedData)
    (env : Env) (st : BotState) (h : env.boosted = some bd)
    (hcond : condCreature force bd st = true) :
    (post_boosted_updates force env st).1.creature_posted = true ∧
    (post_boosted_updates force env st).2.1.last_posted_creature =
      bd.boosted_creature ∧
    (post_boosted_updates force env st).1.errors = [] := by
  rw [post_some_eq force bd env st h]
  exact ⟨hcond, by simp [hcond], rfl⟩

/-- Witness for C1's amended theorem at the failing-send environment. -/
theorem send_failure_state_update_witness :
    envForbidden.boosted = some ⟨.str "Wolf", .null, .null⟩ ∧
    condCreature false ⟨.str "Wolf", .null, .null⟩ BotState.init = true ∧
    (post_boosted_updates false envForbidden BotState.init).1.creature_posted
        = true ∧
    (post_boosted_updates false envForbidden BotState.init).2.1.last_posted_creature
        = Json.str "Wolf" :=
  ⟨rfl, rfl,
   (send_failure_state_update false ⟨.str "Wolf", .null, .null⟩ envForbidden
      BotState.init rfl rfl).1,
   (send_failure_state_update false ⟨.str "Wolf", .null, .null⟩ envForbidden
      BotState.init rfl rfl).2.1⟩

/-- C3 counterexample: at a concrete call where the creature send fails with
a transport error while a boss is also due, the boss posting is indeed
unaffected (it posts), but `last_posted_creature` does not remain unchanged:
it is overwritten from null to "Dragon", so the next tick will not retry the
creature post — refuting the claim's retry conjunct. -/
theorem slot_retry_claim_refuted :
    (post_boosted_updates false envHttpFail BotState.init).2.2 =
      [.detailFetch .creature (.str "Dragon"),
       .channelSend .creature 3 .httpError,
       .detailFetch .boss (.str "Morgaroth"),
       .channelSend .boss 4 .success] ∧
    (post_boosted_updates false envHttpFail BotState.init).2.1.last_posted_creature
        = Json.str "Dragon" ∧
    BotState.init.last_posted_creature = Json.null ∧
    (post_boosted_updates false envHttpFail BotState.init).1.boss_posted = true :=
  ⟨rfl, rfl, rfl, rfl⟩

/-- C3 (amended): creature and boss processing are independent — the boss
slot's posting outcome (flag, stored boss value, boss send attempts) is the
same for any two creature-slot environments, including any send failure;
however, a failed creature send does not leave `last_posted_creature`
unchanged (see the counterexample), so the creature post is not retried. -/
theorem slot_independence (force : Bool) (bo : Option BoostedData)
    (c c' eb : SlotEnv) (st : BotState) :
    (post_boosted_updates force ⟨bo, c, eb⟩ st).1.boss_posted =
      (post_boosted_updates force ⟨bo, c', eb⟩ st).1.boss_posted ∧
    (post_boosted_updates force ⟨bo, c, eb⟩ st).2.1.last_posted_boss =
      (post_boosted_updates force ⟨bo, c', eb⟩ st).2.1.last_posted_boss ∧
    sendCount .boss (post_boosted_updates force ⟨bo, c, eb⟩ st).2.2 =
      sendCount .boss (post_boosted_updates force ⟨bo, c', eb⟩ st).2.2 := by
  cases bo with
  | none => exact ⟨rfl, rfl, rfl⟩
  | some bd =>
    rw [post_some_eq force bd ⟨some bd, c, eb⟩ st rfl,
        post_some_eq force bd ⟨some bd, c', eb⟩ st rfl]
    refine ⟨rfl, rfl, ?_⟩
    rw [sendCount_append, sendCount_append]
    have z1 : sendCount .boss (if condCreature force bd st = true then
        postSlotUpdate .creature c bd.boosted_creature else []) = 0 := by
      split
      · exact sendCount_other .boss .creature c bd.boosted_creature (by simp)
      · rfl
    have z2 : sendCount .boss (if condCreature force bd st = true then
        postSlotUpdate .creature c' bd.boosted_creature else []) = 0 := by
      split
      · exact sendCount_other .boss .creature c' bd.boosted_creature (by simp)
      · rfl
    rw [z1, z2]

/-! ## C4: retry contract of `_make_request` -/

theorem make_request_loop_le (responses : Nat → HResp) :
    ∀ fuel attempt, (make_request_loop responses fuel attempt).2 ≤ fuel := by
  intro fuel
  induction fuel with
  | zero => intro attempt; simp [make_request_loop]
  | succ n ih =>
    intro attempt
    unfold make_request_loop
    cases responses attempt with
    | http status body =>
      by_cases hs : status = 200
      · cases body with
        | ok data => simp [hs]
        | error e => simpa [hs] using Nat.succ_le_succ (ih (attempt + 1))
      · by_cases hr : status = 429
        · simpa [hs, hr] using Nat.succ_le_succ (ih (attempt + 1))
        · simpa [hs, hr] using Nat.succ_le_succ (ih (attempt + 1))
    | exn => simpa using Nat.succ_le_succ (ih (attempt + 1))

theorem make_request_loop_success (responses : Nat → HResp) (attempt fuel : Nat)
    (data : Json) (h : (responses attempt).success = some data) :
    make_request_loop responses (fuel + 1) attempt = (some data, 1) := by
  unfold make_request_loop
  cases hr : responses attempt with
  | http status body =>
    rw [hr] at h
    simp only [HResp.success] at h
    by_cases hs : status = 200
    · rw [if_pos hs] at h
      cases body with
      | ok d =>
        simp only [Option.some.injEq] at h
        simp [hs, h]
      | error e => exact Option.noConfusion h
    · rw [if_neg hs] at h
      exact Option.noConfusion h
  | exn =>
    rw [hr] at h
    exact Option.noConfusion h

theorem make_request_loop_skip (responses : Nat → HResp) (attempt fuel : Nat)
    (h : (responses attempt).success = none) :
    make_request_loop responses (fuel + 1) attempt =
      ((make_request_loop responses fuel (attempt + 1)).1,
       (make_request_loop responses fuel (attempt + 1)).2 + 1) := by
  cases hr : responses attempt with
  | http status body =>
    rw [hr] at h
    simp only [HResp.success] at h
    by_cases hs : status = 200
    · rw [if_pos hs] at h
      cases body with
      | ok d => exact Option.noConfusion h
      | error e =>
        simp only [make_request_loop, hr]
        simp [hs]
    · simp only [make_request_loop, hr]
      by_cases h429 : status = 429 <;> simp [hs, h429]
  | exn =>
    simp only [make_request_loop, hr]

theorem make_request_loop_first (responses : Nat → HResp) :
    ∀ i fuel attempt data, i < fuel →
      (∀ j, j < i → (responses (attempt + j)).success = none) →
      (responses (attempt + i)).success = some data →
      make_request_loop responses fuel attempt = (some data, i + 1) := by
  intro i
  induction i with
  | zero =>
    intro fuel attempt data hlt _ hsucc
    match fuel, hlt with
    | f + 1, _ =>
      rw [Nat.add_zero] at hsucc
      exact make_request_loop_success responses attempt f data hsucc
  | succ n ih =>
    intro fuel attempt data hlt hnone hsucc
    match fuel, hlt with
    | f + 1, hlt =>
      have h0 : (responses attempt).success = none := by
        have := hnone 0 (Nat.succ_pos n)
        rwa [Nat.add_zero] at this
      rw [make_request_loop_skip responses attempt f h0]
      have hrec := ih f (attempt + 1) data (Nat.lt_of_succ_lt_succ hlt)
        (fun j hj => by
          have := hnone (j + 1) (Nat.succ_lt_succ hj)
          rwa [show attempt + (j + 1) = attempt + 1 + j by omega] at this)
        (by rwa [show attempt + 1 + n = attempt + (n + 1) by omega])
      rw [hrec]

theorem make_request_loop_exhaust (responses : Nat → HResp) :
    ∀ fuel attempt, (∀ j, j < fuel → (responses (attempt + j)).success = none) →
      make_request_loop responses fuel attempt = (none, fuel) := by
  intro fuel
  induction fuel with
  | zero => intro attempt _; rfl
  | succ n ih =>
    intro attempt hnone
    have h0 : (responses attempt).success = none := by
      have := hnone 0 (Nat.succ_pos n)
      rwa [Nat.add_zero] at this
    rw [make_request_loop_skip responses attempt n h0]
    rw [ih (attempt + 1) (fun j hj => by
      have := hnone (j + 1) (Nat.succ_lt_succ hj)
      rwa [show attempt + (j + 1) = attempt + 1 + j by omega] at this)]

/-- Response sequence of the spec's retry scenario: 429 on the first two
attempts, then 200 with a parsed body. -/
def resp429 : Nat → HResp :=
  fun n => if n < 2 then .http 429 (.ok (Json.obj []))
           else .http 200 (.ok (Json.str "payload"))

/-- Response sequence of the spec's exhaustion scenario: 500 on every
attempt. -/
def resp500 : Nat → HResp := fun _ => .http 500 (.ok (Json.obj []))

/-- C4: the request primitive makes at most `retries + 1` HTTP attempts and
returns the parsed body of the first 200 response, stopping immediately;
with no 200 within the budget it returns absent after exactly `retries + 1`
calls.  In particular, 429/429/200 with `retries = 3` returns the parsed
body after exactly 3 calls, and all-500 with `retries = 2` returns absent
after exactly 3 calls. -/
theorem make_request_retry_contract (responses : Nat → HResp) (retries : Nat) :
    (make_request responses retries).2 ≤ retries + 1 ∧
    (∀ i data, i ≤ retries →
      (∀ j, j < i → (responses j).success = none) →
      (responses i).success = some data →
      make_request responses retries = (some data, i + 1)) ∧
    ((∀ j, j ≤ retries → (responses j).success = none) →
      make_request responses retries = (none, retries + 1)) ∧
    make_request resp429 3 = (some (Json.str "payload"), 3) ∧
    make_request resp500 2 = (none, 3) := by
  refine ⟨make_request_loop_le responses (retries + 1) 0, ?_, ?_, rfl, rfl⟩
  · intro i data hle hnone hsucc
    exact make_request_loop_first responses i (retries + 1) 0 data
      (Nat.lt_succ_of_le hle)
      (fun j hj => by simpa using hnone j hj)
      (by simpa using hsucc)
  · intro hnone
    exact make_request_loop_exhaust responses (retries + 1) 0
      (fun j hj => by simpa using hnone j (Nat.lt_succ_iff.mp hj))

/-- Witness for C4: the 429/429/200 scenario instantiates the first-200
clause at attempt index 2. -/
theorem make_request_retry_contract_witness :
    (2 ≤ 3) ∧
    (resp429 0).success = none ∧ (resp429 1).success = none ∧
    (resp429 2).success = some (Json.str "payload") ∧
    make_request resp429 3 = (some (Json.str "payload"), 3) :=
  ⟨by decide, rfl, rfl, rfl,
   (make_request_retry_contract resp429 3).2.1 2 (Json.str "payload")
     (by decide)
     (fun j hj => by
       interval_cases j <;> rfl)
     rfl⟩

/-! ## C5: name handling of `get_creature_details` -/

/-- C5 counterexample: the source normalizes with
`creature_name.replace(' ', '_').lower()` and never trims, so for the input
" A" (leading space) it requests "creature/_a", while the claimed
trim-lowercase-underscore normalization would request "creature/a" — a
different endpoint path. -/
theorem name_trim_claim_refuted :
    (get_creature_details (fun _ => none) (some " A")).2 = ["creature/_a"] ∧
    "creature/" ++ specNormalizeName " A" = "creature/a" ∧
    ("creature/_a" : String) ≠ "creature/a" :=
  ⟨by decide, by decide, by decide⟩

/-- C5 (amended): `get_creature_details` normalizes its argument by
replacing spaces with underscores and lowercasing — with no trimming of
surrounding whitespace — so "Fire Elemental" and "fire_elemental" request
the same endpoint path; for absent or empty input it returns absent without
making any request; and it returns absent when the (truthy) response lacks
the expected "creature" wrapper field. -/
theorem name_normalization (responder : String → Option Json) :
    (get_creature_details responder (some "Fire Elemental")).2 =
      (get_creature_details responder (some "fire_elemental")).2 ∧
    get_creature_details responder none = (.null, []) ∧
    get_creature_details responder (some "") = (.null, []) ∧
    (∀ s, s ≠ "" →
      (get_creature_details responder (some s)).2 =
        ["creature/" ++ pyLower (pyReplaceSpace s)]) ∧
    (∀ s d, s ≠ "" →
      responder ("creature/" ++ pyLower (pyReplaceSpace s)) = some d →
      pyIn "creature" d = .ok false →
      (get_creature_details responder (some s)).1 = .null) := by
  refine ⟨rfl, rfl, rfl, ?_, ?_⟩
  · intro s hs
    simp only [get_creature_details]
    rw [if_neg (by simp [hs])]
  · intro s d hs hresp hlacks
    simp only [get_creature_details]
    rw [if_neg (by simp [hs])]
    simp only [hresp]
    by_cases ht : pyTruthy d = true
    · simp [ht, hlacks]
    · simp [ht]

/-- Responder for the C5 witness: the normalized endpoint resolves to a dict
lacking the "creature" wrapper. -/
def respLacking : String → Option Json :=
  fun e => if e = "creature/no_such" then some (.obj [("x", .null)]) else none

/-- Witness for C5's amended theorem: a non-empty name whose truthy response
lacks the wrapper field yields absent, and the requested path is the
underscore-lowercase normalization. -/
theorem name_normalization_witness :
    ("No Such" : String) ≠ "" ∧
    respLacking "creature/no_such" = some (Json.obj [("x", Json.null)]) ∧
    pyIn "creature" (Json.obj [("x", Json.null)]) = .ok false ∧
    (get_creature_details respLacking (some "No Such")).1 = Json.null ∧
    (get_creature_details respLacking (some "No Such")).2 = ["creature/no_such"] :=
  ⟨by decide, rfl, rfl,
   (name_normalization respLacking).2.2.2.2 "No Such" (Json.obj [("x", Json.null)])
     (by decide) rfl rfl,
   (name_normalization respLacking).2.2.2.1 "No Such" (by decide)⟩

/-! ## C6: partial-summary behaviour of `get_boosted_creatures` -/

/-- A world response carrying an optional boosted creature and an optional
timestamp in the places the source reads them. -/
def worldResp (c ts : Option String) : Json :=
  .obj [("world", .obj [("world_information", .obj
           (match c with
            | some n => [("boosted_creature", .str n)]
            | none => []))]),
        ("information", .obj
           (match ts with
            | some t => [("timestamp", .str t)]
            | none => []))]

/-- A boostable-bosses response with an optional boosted boss entry. -/
def bossesResp (b : Option String) : Json :=
  .obj [("boostable_bosses", .obj
    (match b with
     | some n => [("boosted", .obj [("name", .str n)])]
     | none => []))]

/-- The JSON value of an optional string. -/
def jsonOfOpt : Option String → Json
  | none => .null
  | some s => .str s

/-- World response observing creature "Dragon" for the C6 counterexample. -/
def w0 : Json :=
  .obj [("world", .obj [("world_information", .obj
    [("boosted_creature", .str "Dragon")])])]

/-- Bosses response marking a boosted boss but lacking its "name" field. -/
def b0 : Json :=
  .obj [("boostable_bosses", .obj [("boosted", .obj [("rank", .str "1")])])]

/-- C6 counterexample: with a world response from which the creature
"Dragon" is obtained, and a bosses response whose truthy "boosted" entry
lacks the "name" key, `bosses_info['boosted']['name']` raises `KeyError`,
the enclosing `except` returns `None`, and the whole summary is absent even
though the creature value was obtained — refuting "returns absent only when
both values are unobtainable". -/
theorem boosted_summary_claim_refuted :
    extractCreature (some w0) = .ok (.str "Dragon") ∧
    pyTruthy (.str "Dragon") = true ∧
    extractBoss (some b0) = .error () ∧
    get_boosted_creatures (some w0) (some b0) = none :=
  ⟨rfl, rfl, rfl, rfl⟩

theorem extractCreature_worldResp (c ts : Option String) :
    extractCreature (some (worldResp c ts)) = .ok (jsonOfOpt c) := by
  cases c <;> rfl

theorem extractBoss_bossesResp (b : Option String) :
    extractBoss (some (bossesResp b)) = .ok (jsonOfOpt b) := by
  cases b <;> rfl

theorem extractTimestamp_worldResp (c ts : Option String) :
    extractTimestamp (some (worldResp c ts)) = .ok (jsonOfOpt ts) := by
  cases c <;> cases ts <;> rfl

/-- C6 (amended): over fetch failures and well-shaped responses (the boosted
fields absent or non-empty strings, a boosted boss entry carrying its name),
`get_boosted_creatures` returns absent iff both the creature and the boss
value are unobtainable; when at least one is obtained it returns a partial
summary with the other field absent and the timestamp taken from the world
response's "information" metadata.  (Outside this family the claim fails:
a truthy boosted-boss entry without a "name" key aborts the whole call —
see the counterexample.) -/
theorem boosted_summary_partial (wc : Option (Option String × Option String))
    (bb : Option (Option String))
    (hc : wc.bind (fun p => p.1) ≠ some "")
    (hb : bb.bind id ≠ some "") :
    get_boosted_creatures (wc.map fun p => worldResp p.1 p.2)
        (bb.map bossesResp) =
      (if (wc.bind fun p => p.1) = none ∧ bb.bind id = none then none
       else some ⟨jsonOfOpt (wc.bind fun p => p.1), jsonOfOpt (bb.bind id),
                  match wc with
                  | some p => jsonOfOpt p.2
                  | none => Json.null⟩) := by
  have ec_none : extractCreature none = .ok .null := rfl
  have eb_none : extractBoss none = .ok .null := rfl
  have et_none : extractTimestamp none = .ok .null := rfl
  rcases wc with _ | ⟨(_ | n), ts⟩ <;> rcases bb with _ | (_ | m) <;>
    simp_all [Option.bind, get_boosted_creatures, ec_none, eb_none, et_none,
      extractCreature_worldResp, extractBoss_bossesResp,
      extractTimestamp_worldResp, jsonOfOpt, pyTruthy] <;>
    exact fun h => hc (by subst h; rfl)

/-- Witness for C6's amended theorem: both values observed, summary carries
both and the world metadata timestamp. -/
theorem boosted_summary_partial_witness :
    ((some ((some "Wolf" : Option String), (some "ts1" : Option String))).bind
        (fun p => p.1) ≠ some "") ∧
    ((some (some "Morgaroth" : Option String)).bind id ≠ some "") ∧
    get_boosted_creatures (some (worldResp (some "Wolf") (some "ts1")))
        (some (bossesResp (some "Morgaroth"))) =
      some ⟨.str "Wolf", .str "Morgaroth", .str "ts1"⟩ := by
  refine ⟨by decide, by decide, ?_⟩
  have h := boosted_summary_partial (some (some "Wolf", some "ts1"))
    (some (some "Morgaroth")) (by decide) (by decide)
  simpa [Option.bind, jsonOfOpt] using h

/-! ## C9: overlapping reconcile invocations -/

/-- C9 counterexample: with no lock in the code, the schedule
A-check, B-check, A-send, A-commit, B-send, B-commit is a legal interleaving
of two overlapping `post_boosted_updates` calls at the coroutine suspension
points, and under it both invocations send a notification for the same
single transition (null → "Wolf") of the creature slot — refuting the claim
that the observe→compare→send→commit sequence is protected by mutual
exclusion. -/
theorem race_double_post :
    (raceRun (.str "Wolf") [true, false, true, true, false, false]
        (raceInit .null)).sendsA = 1 ∧
    (raceRun (.str "Wolf") [true, false, true, true, false, false]
        (raceInit .null)).sendsB = 1 ∧
    (raceRun (.str "Wolf") [true, false, true, true, false, false]
        (raceInit .null)).taskA.posted = true ∧
    (raceRun (.str "Wolf") [true, false, true, true, false, false]
        (raceInit .null)).taskB.posted = true :=
  ⟨rfl, rfl, rfl, rfl⟩

/-- C9 (amended): the code has no mutual-exclusion mechanism, and two
overlapping invocations can both post the same transition (see the
counterexample); only when the invocations do not interleave — one runs all
its atomic blocks before the other starts — is at most one notification sent
for a single state transition, because the completed invocation's committed
value makes the second change check fail. -/
theorem race_serialized (observed last0 : Json) :
    (raceRun observed [true, true, true, false, false, false]
        (raceInit last0)).sendsA +
      (raceRun observed [true, true, true, false, false, false]
        (raceInit last0)).sendsB ≤ 1 := by
  by_cases h : (pyTruthy observed && !(observed == last0)) = true
  · simp [raceRun, raceStep, taskStep, raceInit, h, Json.beq_self]
  · simp [raceRun, raceStep, taskStep, raceInit, h]
